import Mathlib

/-!
# Verification of the Cottage Tandoori printer helper (src/index.js)

Shallow embedding of the Express service in `src/index.js`.

Modelling conventions:

* Text documents are modelled as lists of lines (`List String`): the
  emitted document is the `"\n"`-intercalation of the list.  Every
  fragment the JavaScript appends to the document string is translated
  into the list of lines it contributes, keeping the exact line
  boundaries of the original `\n`-separated template literals.
* Monetary amounts are modelled as integral pence (`Nat`); `toFixed2 m`
  renders `m` pence the way JavaScript's `value.toFixed(2)` renders the
  corresponding pounds value.
* JSON request bodies are modelled by the inductive `JValue`, with
  JavaScript truthiness (`JValue.truthy`) used by the validation code.
* The printer handle (`let printer = null` in the source) is modelled as
  `Option Device`; a device that throws when used has `fails = true`.
  Handlers are pure functions that take the printer handle and return it
  together with the response and the dispatched print job, so that
  (absence of) mutation of the handle is visible in the model.
-/

namespace CottagePrinter

/-! ## JavaScript request values -/

/-- A JavaScript value as it can appear in a JSON request body
(`undefined` stands for an absent field). -/
inductive JValue where
  | undefined
  | null
  | boolean (b : Bool)
  | num (n : Int)
  | str (s : String)
  | obj (fields : List (String × JValue))
  | arr (elems : List JValue)

/-- JavaScript truthiness of a value, as used by `if (!order || ...)`. -/
def JValue.truthy : JValue → Bool
  | .undefined => false
  | .null => false
  | .boolean b => b
  | .num n => n != 0
  | .str s => s != ""
  | .obj _ => true
  | .arr _ => true

/-- Property access `v.k`: on an object, the stored field or `undefined`;
on anything else modelled as `undefined` (the claims never access fields
of `null`). -/
def JValue.getField : JValue → String → JValue
  | .obj fields, k => match fields.lookup k with
    | some v => v
    | none => .undefined
  | _, _ => .undefined

/-- JavaScript string interpolation of a value, as in `` `#${x}` ``.
Array stringification is approximated by the empty string; it is not
exercised by any claim. -/
def jvToString : JValue → String
  | .undefined => "undefined"
  | .null => "null"
  | .boolean true => "true"
  | .boolean false => "false"
  | .num n => toString n
  | .str s => s
  | .arr _ => ""
  | .obj _ => "[object Object]"

/-! ## Common helpers -/

/-- `a || d` for an optional string `a`, mirroring JavaScript truthiness:
an absent or empty string falls back to the default. -/
def jsOrStr : Option String → String → String
  | some s, d => if s = "" then d else s
  | none, d => d

/-- String interpolation of an optional string: JavaScript renders an
`undefined` field as the literal text `"undefined"`. -/
def jsShow : Option String → String
  | some s => s
  | none => "undefined"

/-- JavaScript `value.toFixed(2)` for a monetary amount of `m` pence:
the pounds part, a dot, and exactly two decimal digits. -/
def toFixed2 (m : Nat) : String :=
  Nat.repr (m / 100) ++ "." ++
    (if m % 100 < 10 then "0" ++ Nat.repr (m % 100) else Nat.repr (m % 100))

/-- JavaScript `s.padEnd(n)`: pad with spaces up to length `n` (no-op on
longer strings). -/
def padEnd (s : String) (n : Nat) : String :=
  s ++ String.mk (List.replicate (n - s.length) ' ')

/-- `s.toUpperCase()` (ASCII). -/
def strUpper (s : String) : String := String.mk (s.data.map Char.toUpper)

/-- The line `s` begins with the text `p` (its first `p.length`
characters are exactly `p`). -/
def beginsWith (p s : String) : Prop := s.data.take p.data.length = p.data

instance (p s : String) : Decidable (beginsWith p s) := by
  unfold beginsWith; infer_instance

/-! ## Data model of parsed orders -/

/-- A kitchen line item (fields read by `/api/print-kitchen`). -/
structure KItem where
  name : String
  quantity : Nat
  category : Option String := none
  spiceLevel : Option String := none
  specialInstructions : Option String := none
  allergens : List String := []
deriving Repr, DecidableEq

/-- A kitchen order (fields read by `/api/print-kitchen`). -/
structure KOrder where
  items : List KItem
  specialInstructions : Option String := none
  tableNumber : Option String := none
  orderType : Option String := none
deriving Repr, DecidableEq

/-- A modifier of a customer line item (`name` and `price` in pence). -/
structure CModifier where
  name : String
  price : Nat
deriving Repr, DecidableEq

/-- A customer line item (fields read by `/api/print-customer`). -/
structure CItem where
  name : String
  quantity : Nat
  price : Nat
  modifiers : List CModifier := []
deriving Repr, DecidableEq

/-- A customer order: items plus the precomputed monetary fields
(`subtotal`, `vatAmount`, `total` are required by the code, the optional
ones are compared against `0` with JavaScript semantics). -/
structure COrder where
  items : List CItem
  subtotal : Nat
  vatAmount : Nat
  total : Nat
  discountAmount : Option Nat := none
  deliveryFee : Option Nat := none
  orderType : Option String := none
  deliveryAddress : Option String := none
deriving Repr, DecidableEq

/-- Payment details (fields read by `/api/print-customer`). -/
structure CPayment where
  method : String
  status : String
  cardLast4 : Option String := none
deriving Repr, DecidableEq

/-! ## Kitchen receipt formatter (src/index.js lines 124-182) -/

/-- The lines pushed into a section for one item (lines 144-156):
`"<quantity>x <name>"`, then optional spice level, special instructions
and allergen warning lines. -/
def itemKitchenLines (it : KItem) : List String :=
  (Nat.repr it.quantity ++ "x " ++ it.name) ::
    ((match it.spiceLevel with
      | some s => if s = "" then [] else ["   🌶️ " ++ s]
      | none => [])
    ++ (match it.specialInstructions with
      | some s => if s = "" then [] else ["   📝 " ++ s]
      | none => [])
    ++ (if it.allergens.length > 0 then
          ["   ⚠️ ALLERGENS: " ++ String.intercalate ", " it.allergens]
        else []))

/-- The five fixed section names, in the order of the `sections` object
literal (lines 132-138). -/
def sectionKeys : List String := ["Starters", "Mains", "Rice & Bread", "Drinks", "Others"]

/-- The initial `sections` object: each of the five keys mapped to an
empty list, in literal order. -/
def initSections : List (String × List String) :=
  [("Starters", []), ("Mains", []), ("Rice & Bread", []), ("Drinks", []), ("Others", [])]

/-- The property names every object literal inherits from
`Object.prototype`.  For these names `sections[section]` does not come
back `undefined`: it finds the inherited member (a function, or
`Object.prototype` itself for `__proto__`), which is truthy, so the
`|| sections['Others']` fallback never fires and the following
`targetSection.push(...)` throws a `TypeError`. -/
def objectProtoKeys : List String :=
  ["constructor", "hasOwnProperty", "isPrototypeOf", "propertyIsEnumerable",
   "toLocaleString", "toString", "valueOf", "__proto__",
   "__defineGetter__", "__defineSetter__", "__lookupGetter__", "__lookupSetter__"]

/-- Push lines onto the section named `key` (`targetSection.push(...)`). -/
def addToSection (secs : List (String × List String)) (key : String)
    (ls : List String) : List (String × List String) :=
  secs.map fun p => if p.1 == key then (p.1, p.2 ++ ls) else p

/-- One step of the `order.items.forEach` loop (lines 140-157):
`const section = item.category || 'Others'`, then
`const targetSection = sections[section] || sections['Others']` — an own
key of the `sections` literal holds a (truthy) array and receives the
pushes; a name inherited from `Object.prototype` is also truthy, so the
fallback is skipped and `targetSection.push` throws (`none`); only a
name that is neither falls back to the `Others` array. -/
def addItem (secs : List (String × List String)) (it : KItem) :
    Option (List (String × List String)) :=
  let sec := jsOrStr it.category "Others"
  if (secs.lookup sec).isSome then
    some (addToSection secs sec (itemKitchenLines it))
  else if sec ∈ objectProtoKeys then none
  else some (addToSection secs "Others" (itemKitchenLines it))

/-- The lines a section contributes to the document (lines 160-168): a
bracketed uppercase header, the section's items and a blank line —
nothing at all when the section is empty. -/
def sectionBlock (nm : String) (its : List String) : List String :=
  if its.length > 0 then ("[" ++ strUpper nm ++ "]") :: its ++ [""] else []

/-- `Object.entries(sections).forEach(...)` (lines 160-168), appending
every non-empty section's block to the document. -/
def renderSections (secs : List (String × List String)) : List String :=
  secs.foldl (fun acc p => acc ++ sectionBlock p.1 p.2) []

/-- The full kitchen document (lines 124-182) as a list of lines:
header, grouped sections, optional special-instructions block, and the
trailing table / order-type block.  `none` models the grouping loop
throwing a `TypeError` (a category colliding with an inherited
`Object.prototype` name), in which case no document is produced and the
handler answers HTTP 500. -/
def kitchenLines (o : KOrder) (orderNumber ts : String) : Option (List String) :=
  match o.items.foldlM addItem initSections with
  | none => none
  | some secs => some
      (["", "KITCHEN ORDER #" ++ orderNumber, ts, "============================", ""]
      ++ renderSections secs
      ++ (match o.specialInstructions with
          | some s => if s = "" then [] else ["", "🍽️ SPECIAL INSTRUCTIONS:", s, ""]
          | none => [])
      ++ ["", "Table: " ++ jsOrStr o.tableNumber "N/A",
          "Order Type: " ++ jsOrStr o.orderType "DINE-IN",
          "============================", "    "])

/-- Claim-level section assignment: an item goes to its category when
that is one of the five fixed section names, and to `"Others"` when the
category is absent or unrecognized. -/
def itemSectionSpec (it : KItem) : String :=
  match it.category with
  | some c => if c ∈ sectionKeys then c else "Others"
  | none => "Others"

/-- Claim-level content of the section named `nm`: the item lines of the
items assigned to it, in order. -/
def secContent (nm : String) (items : List KItem) : List String :=
  ((items.filter (fun it => itemSectionSpec it == nm)).map itemKitchenLines).flatten

/-! ## Customer receipt formatter (src/index.js lines 205-263) -/

/-- The lines for one customer item (lines 214-223): quantity, padded
name and extended price, then one indented line per modifier. -/
def itemCustomerLines (it : CItem) : List String :=
  (Nat.repr it.quantity ++ "x " ++ padEnd it.name 20 ++ "£" ++ toFixed2 (it.price * it.quantity))
  :: it.modifiers.map (fun m => "   + " ++ padEnd m.name 16 ++ "£" ++ toFixed2 m.price)

/-- The totals section (lines 225-240): divider, subtotal, conditional
discount and delivery-fee lines, VAT, divider, total — all taken from
the order's precomputed fields. -/
def customerTotalsLines (o : COrder) : List String :=
  ["", "----------------------------", "Subtotal................£" ++ toFixed2 o.subtotal]
  ++ (match o.discountAmount with
      | some d => if 0 < d then ["Discount................-£" ++ toFixed2 d] else []
      | none => [])
  ++ (match o.deliveryFee with
      | some f => if 0 < f then ["Delivery Fee............£" ++ toFixed2 f] else []
      | none => [])
  ++ ["VAT (20%)...............£" ++ toFixed2 o.vatAmount,
      "----------------------------",
      "TOTAL...................£" ++ toFixed2 o.total]

/-- The full customer document (lines 205-263) as a list of lines. -/
def customerLines (o : COrder) (p : CPayment) (orderNumber ts : String) : List String :=
  ["", "CUSTOMER RECEIPT", "Order #" ++ orderNumber, ts, "============================", ""]
  ++ (o.items.map itemCustomerLines).flatten
  ++ customerTotalsLines o
  ++ ["", "PAYMENT DETAILS:", "Method: " ++ p.method, "Status: " ++ p.status]
  ++ (match p.cardLast4 with
      | some c => if c = "" then [] else ["Card: ****" ++ c]
      | none => [])
  ++ ["", "Order Type: " ++ jsShow o.orderType]
  ++ (match o.deliveryAddress with
      | some a => if a = "" then [] else ["Delivery Address:", a]
      | none => [])
  ++ ["", "Thank you for your order!", "Visit us again soon.",
      "============================", "    "]

/-! ## Test receipt (src/index.js lines 89-102) -/

/-- The static test document, parameterized by the current timestamp. -/
def testLines (ts : String) : List String :=
  ["", "TEST RECEIPT", "-----------", "Date: " ++ ts,
   "Test Item 1..................£8.50", "Test Item 2..................£12.00",
   "                        -----------",
   "Subtotal....................£20.50", "VAT (20%)...................£4.10",
   "                        -----------",
   "TOTAL......................£24.60", "", "Thank you for visiting!", "    "]

/-! ## Printer handle and print dispatch (src/index.js lines 18-75) -/

/-- A connected ESC/POS device; `fails = true` models a device whose
driver call throws when used. -/
structure Device where
  fails : Bool
deriving Repr, DecidableEq

/-- Where a document ended up: the physical device, or the console
fallback sink. -/
inductive Sink where
  | device
  | console
deriving Repr, DecidableEq

/-- A dispatched print job: the document and the sink that received it. -/
structure PrintJob where
  content : List String
  sink : Sink
deriving Repr, DecidableEq

/-- `printOrSimulate` (lines 37-75): with no printer, or when the device
call throws, the document goes to the console; otherwise to the device.
The callback always runs, and the printer handle is returned unchanged
(the function never reassigns `printer`). -/
def printOrSimulate (printer : Option Device) (content : List String) :
    PrintJob × Option Device :=
  match printer with
  | some d =>
      if d.fails then ({ content := content, sink := .console }, some d)
      else ({ content := content, sink := .device }, some d)
  | none => ({ content := content, sink := .console }, none)

/-- `initializePrinter` (lines 21-34): the startup probe; when the USB
device constructor throws (`usb = none`), the handle stays `null`. -/
def initializePrinter (usb : Option Device) : Option Device × Bool :=
  match usb with
  | some d => (some d, true)
  | none => (none, false)

/-! ## Request decoding

The handlers read the parsed JSON body.  Decoding a `JValue` into the
typed order records models the field accesses the handler performs; a
`none` result models a thrown `TypeError` (for example
`order.items.forEach` when `items` is not an array), which Express turns
into an HTTP 500.  The decoders expect well-typed payloads as described
by the spec's data model. -/

/-- A numeric field (`quantity`, `price`, monetary amounts in pence). -/
def decodeNat : JValue → Option Nat
  | .num n => if n < 0 then none else some n.toNat
  | _ => none

/-- An optional string field: absent or `null` decodes to `none`. -/
def decodeOptStr : JValue → Option (Option String)
  | .undefined => some none
  | .null => some none
  | .str s => some (some s)
  | _ => none

/-- An optional numeric field: absent or `null` decodes to `none` (the
code only compares these against `0`, and `undefined > 0` is false). -/
def decodeOptNat : JValue → Option (Option Nat)
  | .undefined => some none
  | .null => some none
  | .num n => some (some n.toNat)
  | _ => none

/-- The `allergens` field: absent or `null` behaves like an empty list
(the guard `item.allergens && item.allergens.length > 0` fails). -/
def decodeStrList : JValue → Option (List String)
  | .undefined => some []
  | .null => some []
  | .arr es => es.mapM (fun v => match v with | .str s => some s | _ => none)
  | _ => none

/-- One kitchen item. -/
def decodeKItem (v : JValue) : Option KItem :=
  match v with
  | .obj _ => do
      let name ← match v.getField "name" with | .str s => some s | _ => none
      let quantity ← decodeNat (v.getField "quantity")
      let category ← decodeOptStr (v.getField "category")
      let spiceLevel ← decodeOptStr (v.getField "spiceLevel")
      let si ← decodeOptStr (v.getField "specialInstructions")
      let allergens ← decodeStrList (v.getField "allergens")
      some { name := name, quantity := quantity, category := category,
             spiceLevel := spiceLevel, specialInstructions := si,
             allergens := allergens }
  | _ => none

/-- A kitchen order. -/
def decodeKOrder (v : JValue) : Option KOrder :=
  match v.getField "items" with
  | .arr es => do
      let items ← es.mapM decodeKItem
      let si ← decodeOptStr (v.getField "specialInstructions")
      let tableNumber ← decodeOptStr (v.getField "tableNumber")
      let orderType ← decodeOptStr (v.getField "orderType")
      some { items := items, specialInstructions := si,
             tableNumber := tableNumber, orderType := orderType }
  | _ => none

/-- One modifier of a customer item. -/
def decodeCModifier (v : JValue) : Option CModifier :=
  match v with
  | .obj _ => do
      let name ← match v.getField "name" with | .str s => some s | _ => none
      let price ← decodeNat (v.getField "price")
      some { name := name, price := price }
  | _ => none

/-- The `modifiers` field: absent or `null` behaves like an empty list. -/
def decodeCModifiers : JValue → Option (List CModifier)
  | .undefined => some []
  | .null => some []
  | .arr es => es.mapM decodeCModifier
  | _ => none

/-- One customer item. -/
def decodeCItem (v : JValue) : Option CItem :=
  match v with
  | .obj _ => do
      let name ← match v.getField "name" with | .str s => some s | _ => none
      let quantity ← decodeNat (v.getField "quantity")
      let price ← decodeNat (v.getField "price")
      let modifiers ← decodeCModifiers (v.getField "modifiers")
      some { name := name, quantity := quantity, price := price,
             modifiers := modifiers }
  | _ => none

/-- A customer order (`subtotal`, `vatAmount` and `total` must be
numbers: the code calls `.toFixed(2)` on them). -/
def decodeCOrder (v : JValue) : Option COrder :=
  match v.getField "items" with
  | .arr es => do
      let items ← es.mapM decodeCItem
      let subtotal ← decodeNat (v.getField "subtotal")
      let vatAmount ← decodeNat (v.getField "vatAmount")
      let total ← decodeNat (v.getField "total")
      let discountAmount ← decodeOptNat (v.getField "discountAmount")
      let deliveryFee ← decodeOptNat (v.getField "deliveryFee")
      let orderType ← decodeOptStr (v.getField "orderType")
      let deliveryAddress ← decodeOptStr (v.getField "deliveryAddress")
      some { items := items, subtotal := subtotal, vatAmount := vatAmount,
             total := total, discountAmount := discountAmount,
             deliveryFee := deliveryFee, orderType := orderType,
             deliveryAddress := deliveryAddress }
  | _ => none

/-- Payment details never make the handler throw: `payment.method` and
`payment.status` are interpolated whatever they are, and `cardLast4` is
only used when truthy. -/
def decodeCPayment (v : JValue) : CPayment :=
  { method := jvToString (v.getField "method"),
    status := jvToString (v.getField "status"),
    cardLast4 :=
      if (v.getField "cardLast4").truthy then some (jvToString (v.getField "cardLast4"))
      else none }

/-! ## HTTP handlers (src/index.js lines 78-283) -/

/-- The JSON body of a print-endpoint response (status is the HTTP
status code; `success` is absent from an Express 500 error page, which
is modelled as `false`). -/
structure HResp where
  status : Nat
  success : Bool
  message : String
deriving Repr, DecidableEq

/-- The Express default handling of an exception thrown inside a
handler: HTTP 500, nothing printed. -/
def serverError : HResp :=
  { status := 500, success := false, message := "Internal Server Error" }

/-- `GET /api/health` (lines 78-85). -/
structure HealthResp where
  status : String
  message : String
  printer_connected : Bool
deriving Repr, DecidableEq

def healthHandler (printer : Option Device) : HealthResp × Option Device :=
  ({ status := "running",
     message := "Cottage Tandoori Printer Helper is operational",
     printer_connected := printer.isSome }, printer)

/-- `GET /api/printer-status` (lines 276-283). -/
structure StatusResp where
  connected : Bool
  status : String
  message : String
deriving Repr, DecidableEq

def printerStatusHandler (printer : Option Device) : StatusResp × Option Device :=
  ({ connected := printer.isSome,
     status := if printer.isSome then "ready" else "disconnected",
     message := if printer.isSome then "Printer ready for printing"
                else "Printer not connected - simulating prints" }, printer)

/-- `POST /api/test-print` (lines 88-111): format the static test
document with the current timestamp and dispatch it. -/
def handleTest (printer : Option Device) (now : String) :
    HResp × Option PrintJob × Option Device :=
  let jp := printOrSimulate printer (testLines now)
  ({ status := 200, success := true,
     message := "Test receipt printed successfully" }, some jp.1, jp.2)

/-- `POST /api/print-kitchen` (lines 114-192): validate by truthiness,
then format and dispatch the kitchen document. -/
def handleKitchen (printer : Option Device)
    (order orderNumber timestamp : JValue) (now : String) :
    HResp × Option PrintJob × Option Device :=
  if !order.truthy || !orderNumber.truthy then
    ({ status := 400, success := false,
       message := "Order data and order number are required" }, none, printer)
  else
    match decodeKOrder order with
    | none => (serverError, none, printer)
    | some o =>
        match kitchenLines o (jvToString orderNumber)
          (if timestamp.truthy then jvToString timestamp else now) with
        | none => (serverError, none, printer)
        | some content =>
            let jp := printOrSimulate printer content
            ({ status := 200, success := true,
               message := "Kitchen receipt printed successfully" }, some jp.1, jp.2)

/-- `POST /api/print-customer` (lines 195-273): validate by truthiness,
then format and dispatch the customer document. -/
def handleCustomer (printer : Option Device)
    (order payment orderNumber timestamp : JValue) (now : String) :
    HResp × Option PrintJob × Option Device :=
  if !order.truthy || !payment.truthy || !orderNumber.truthy then
    ({ status := 400, success := false,
       message := "Order data, payment details, and order number are required" },
     none, printer)
  else
    match decodeCOrder order with
    | none => (serverError, none, printer)
    | some o =>
        let content := customerLines o (decodeCPayment payment)
          (jvToString orderNumber)
          (if timestamp.truthy then jvToString timestamp else now)
        let jp := printOrSimulate printer content
        ({ status := 200, success := true,
           message := "Customer receipt printed successfully" }, some jp.1, jp.2)

/-! ## Theorems -/

/-- C1: a kitchen print request missing `order` or `orderNumber`, and a
customer print request missing `order`, `payment` or `orderNumber`, get
an HTTP 400 response with `success: false` and a descriptive message,
and no print job is dispatched (`printOrSimulate` is not called). -/
theorem validation_missing_fields_400
    (printer : Option Device) (order payment orderNumber timestamp : JValue)
    (now : String) :
    (order = .undefined ∨ orderNumber = .undefined →
      (handleKitchen printer order orderNumber timestamp now).1.status = 400 ∧
      (handleKitchen printer order orderNumber timestamp now).1.success = false ∧
      (handleKitchen printer order orderNumber timestamp now).1.message =
        "Order data and order number are required" ∧
      (handleKitchen printer order orderNumber timestamp now).2.1 = none) ∧
    (order = .undefined ∨ payment = .undefined ∨ orderNumber = .undefined →
      (handleCustomer printer order payment orderNumber timestamp now).1.status = 400 ∧
      (handleCustomer printer order payment orderNumber timestamp now).1.success = false ∧
      (handleCustomer printer order payment orderNumber timestamp now).1.message =
        "Order data, payment details, and order number are required" ∧
      (handleCustomer printer order payment orderNumber timestamp now).2.1 = none) := by
  constructor
  · rintro (h | h) <;> subst h <;> simp [handleKitchen, JValue.truthy]
  · rintro (h | h | h) <;> subst h <;> simp [handleCustomer, JValue.truthy]

/-- Witness for C1 at a concrete request with a missing order number. -/
theorem validation_missing_fields_400_witness :
    (handleKitchen none (JValue.obj []) JValue.undefined JValue.undefined "t").1.status = 400 ∧
    (handleKitchen none (JValue.obj []) JValue.undefined JValue.undefined "t").1.success = false ∧
    (handleKitchen none (JValue.obj []) JValue.undefined JValue.undefined "t").1.message =
      "Order data and order number are required" ∧
    (handleKitchen none (JValue.obj []) JValue.undefined JValue.undefined "t").2.1 = none :=
  (validation_missing_fields_400 none (JValue.obj []) JValue.undefined JValue.undefined
    JValue.undefined "t").1 (Or.inr rfl)

/-- C7: two test prints render structurally identical documents that
differ only in the embedded timestamp line, and the test handler
dispatches exactly the document the formatter produces for the current
timestamp (the formatter is a function of input and timestamp alone). -/
theorem test_print_deterministic (t₁ t₂ : String) (printer : Option Device) :
    (∃ pre suf, testLines t₁ = pre ++ ("Date: " ++ t₁) :: suf ∧
                testLines t₂ = pre ++ ("Date: " ++ t₂) :: suf) ∧
    ((handleTest printer t₁).2.1).map PrintJob.content = some (testLines t₁) := by
  refine ⟨⟨["", "TEST RECEIPT", "-----------"],
    ["Test Item 1..................£8.50", "Test Item 2..................£12.00",
     "                        -----------",
     "Subtotal....................£20.50", "VAT (20%)...................£4.10",
     "                        -----------",
     "TOTAL......................£24.60", "", "Thank you for visiting!", "    "],
    rfl, rfl⟩, ?_⟩
  cases printer with
  | none => rfl
  | some d => by_cases h : d.fails <;> simp [handleTest, printOrSimulate, h]

/-- `printOrSimulate` returns the printer handle unchanged in every
branch (it never reassigns `printer`). -/
theorem printOrSimulate_state (pr : Option Device) (c : List String) :
    (printOrSimulate pr c).2 = pr := by
  cases pr with
  | none => rfl
  | some d => by_cases h : d.fails <;> simp [printOrSimulate, h]

/-- C8: the printer handle is only assigned by the startup probe; every
request handler returns it unchanged — in particular a print attempt
whose device call throws still leaves the handle connected (it falls
back to the console for that call only) — so the health report is the
same before and after any request. -/
theorem printer_state_preserved
    (printer : Option Device) (order payment orderNumber timestamp : JValue)
    (now : String) (content : List String) :
    (handleKitchen printer order orderNumber timestamp now).2.2 = printer ∧
    (handleCustomer printer order payment orderNumber timestamp now).2.2 = printer ∧
    (handleTest printer now).2.2 = printer ∧
    (healthHandler printer).2 = printer ∧
    (printerStatusHandler printer).2 = printer ∧
    (printOrSimulate printer content).2 = printer ∧
    (∀ d, printer = some d → d.fails = true →
      (printOrSimulate printer content).2 = some d ∧
      (printOrSimulate printer content).1.sink = Sink.console) ∧
    (healthHandler (handleKitchen printer order orderNumber timestamp now).2.2).1 =
      (healthHandler printer).1 := by
  have hk : (handleKitchen printer order orderNumber timestamp now).2.2 = printer := by
    unfold handleKitchen
    split
    · rfl
    · split
      · rfl
      · split
        · rfl
        · simp [printOrSimulate_state]
  refine ⟨hk, ?_, ?_, rfl, rfl, printOrSimulate_state printer content, ?_, by rw [hk]⟩
  · unfold handleCustomer
    split
    · rfl
    · split
      · rfl
      · simp [printOrSimulate_state]
  · simp [handleTest, printOrSimulate_state]
  · rintro d rfl hfail
    exact ⟨printOrSimulate_state _ _, by simp [printOrSimulate, hfail]⟩

/-- Witness for C8: a connected device that throws is still connected
afterwards, and that call went to the console. -/
theorem printer_state_preserved_witness :
    (printOrSimulate (some { fails := true }) ["doc"]).2 = some { fails := true } ∧
    (printOrSimulate (some { fails := true }) ["doc"]).1.sink = Sink.console :=
  (printer_state_preserved (some { fails := true }) JValue.undefined JValue.undefined
      JValue.undefined JValue.undefined "t" ["doc"]).2.2.2.2.2.2.1
    { fails := true } rfl rfl

/-- C9: validation on the kitchen and customer endpoints tests only
JavaScript truthiness: an `orderNumber` that is present but falsy (the
empty string or the number 0) yields exactly the response of a missing
one, while any truthy `order` (even one without an `items` array) passes
validation (the response is never a 400). -/
theorem validation_is_truthiness
    (printer : Option Device) (order payment timestamp : JValue) (now : String) :
    (handleKitchen printer order (JValue.str "") timestamp now =
      handleKitchen printer order JValue.undefined timestamp now) ∧
    (handleKitchen printer order (JValue.num 0) timestamp now =
      handleKitchen printer order JValue.undefined timestamp now) ∧
    (handleCustomer printer order payment (JValue.str "") timestamp now =
      handleCustomer printer order payment JValue.undefined timestamp now) ∧
    (handleCustomer printer order payment (JValue.num 0) timestamp now =
      handleCustomer printer order payment JValue.undefined timestamp now) ∧
    (order.truthy = true →
      (handleKitchen printer order (JValue.str "42") timestamp now).1.status ≠ 400 ∧
      (handleCustomer printer order (JValue.obj []) (JValue.str "42") timestamp
        now).1.status ≠ 400) := by
  refine ⟨by simp [handleKitchen, JValue.truthy], by simp [handleKitchen, JValue.truthy],
    by simp [handleCustomer, JValue.truthy], by simp [handleCustomer, JValue.truthy], ?_⟩
  intro h
  have h42 : (JValue.str "42").truthy = true := rfl
  have hobj : (JValue.obj []).truthy = true := rfl
  constructor
  · have hc : (!order.truthy || !(JValue.str "42").truthy) = false := by rw [h]; rfl
    rcases hdec : decodeKOrder order with _ | o
    · simp [handleKitchen, hc, hdec, serverError]
    · simp only [handleKitchen, hc, Bool.false_eq_true, if_false, hdec]
      split <;> simp [serverError]
  · rcases hdec : decodeCOrder order with _ | o <;>
      simp [handleCustomer, h, h42, hobj, hdec, serverError]

/-- Witness for C9: the order `{}` is truthy although it has no `items`
array, so it passes validation. -/
theorem validation_is_truthiness_witness :
    (handleKitchen none (JValue.obj []) (JValue.str "42") JValue.undefined "t").1.status ≠ 400 ∧
    (handleCustomer none (JValue.obj []) (JValue.obj []) (JValue.str "42") JValue.undefined
      "t").1.status ≠ 400 :=
  (validation_is_truthiness none (JValue.obj []) (JValue.obj []) JValue.undefined
    "t").2.2.2.2 rfl

/-- C10: the customer receipt applies no default to the order type —
when `orderType` is absent its Order Type line is the literal
`"Order Type: undefined"` — whereas the kitchen receipt defaults the
same field to `"DINE-IN"`. -/
theorem customer_orderType_literal_undefined
    (o : COrder) (p : CPayment) (n ts : String) (ko : KOrder) :
    o.orderType = none →
      ("Order Type: undefined" ∈ customerLines o p n ts ∧
       (ko.orderType = none → ∀ doc, kitchenLines ko n ts = some doc →
         "Order Type: DINE-IN" ∈ doc)) := by
  intro h
  constructor
  · have e : ("Order Type: " ++ jsShow o.orderType) = "Order Type: undefined" := by
      rw [h]; rfl
    unfold customerLines
    rw [e]
    simp [List.mem_append]
  · intro hk doc hdoc
    have e : ("Order Type: " ++ jsOrStr ko.orderType "DINE-IN") = "Order Type: DINE-IN" := by
      rw [hk]; rfl
    unfold kitchenLines at hdoc
    rcases hfold : ko.items.foldlM addItem initSections with _ | secs <;>
      rw [hfold] at hdoc
    · exact absurd hdoc (by simp)
    · obtain rfl := Option.some_inj.mp hdoc
      rw [e]
      simp [List.mem_append]

/-- Witness for C10 at a concrete customer order lacking an order type,
with the kitchen contrast at a concrete kitchen order that renders. -/
theorem customer_orderType_literal_undefined_witness :
    "Order Type: undefined" ∈
      customerLines { items := [], subtotal := 0, vatAmount := 0, total := 0 }
        { method := "card", status := "paid" } "7" "t" ∧
    "Order Type: DINE-IN" ∈
      ["", "KITCHEN ORDER #7", "t", "============================", "",
       "", "Table: N/A", "Order Type: DINE-IN", "============================", "    "] :=
  ⟨(customer_orderType_literal_undefined
      { items := [], subtotal := 0, vatAmount := 0, total := 0 }
      { method := "card", status := "paid" } "7" "t" { items := [] } rfl).1,
   (customer_orderType_literal_undefined
      { items := [], subtotal := 0, vatAmount := 0, total := 0 }
      { method := "card", status := "paid" } "7" "t" { items := [] } rfl).2 rfl
     ["", "KITCHEN ORDER #7", "t", "============================", "",
      "", "Table: N/A", "Order Type: DINE-IN", "============================", "    "] rfl⟩

/-! ### Characterization of the kitchen grouping -/

/-- The claim-level section assignment always lands on one of the five
fixed sections. -/
theorem itemSectionSpec_mem (it : KItem) : itemSectionSpec it ∈ sectionKeys := by
  unfold itemSectionSpec
  cases it.category with
  | none => decide
  | some c =>
      by_cases h : c ∈ sectionKeys
      · simp [h]
      · simp [h]; decide

/-- Looking a name up in the `sections` object succeeds exactly for the
five fixed keys. -/
theorem lookup_five_isSome (c : String) (a b d e f : List String) :
    (List.lookup c [("Starters", a), ("Mains", b), ("Rice & Bread", d),
      ("Drinks", e), ("Others", f)]).isSome = decide (c ∈ sectionKeys) := by
  by_cases h1 : c = "Starters" <;> by_cases h2 : c = "Mains" <;>
    by_cases h3 : c = "Rice & Bread" <;> by_cases h4 : c = "Drinks" <;>
    by_cases h5 : c = "Others" <;>
    simp [List.lookup, sectionKeys, beq_eq_decide, h1, h2, h3, h4, h5]

/-- When the computed section key does not collide with an inherited
`Object.prototype` name, the `forEach` body does not throw, and the key
it pushes to is the claim-level section assignment. -/
theorem addItem_five_eq (a b c d e : List String) (it : KItem)
    (hit : jsOrStr it.category "Others" ∉ objectProtoKeys) :
    addItem [("Starters", a), ("Mains", b), ("Rice & Bread", c), ("Drinks", d),
      ("Others", e)] it =
    some (addToSection [("Starters", a), ("Mains", b), ("Rice & Bread", c), ("Drinks", d),
      ("Others", e)] (itemSectionSpec it) (itemKitchenLines it)) := by
  unfold addItem itemSectionSpec
  cases hc : it.category with
  | none =>
      simp [jsOrStr, lookup_five_isSome]
      decide
  | some c =>
      rw [hc] at hit
      by_cases hce : c = ""
      · subst hce
        simp [jsOrStr, lookup_five_isSome, sectionKeys]
      · simp only [jsOrStr, if_neg hce] at hit ⊢
        rw [lookup_five_isSome]
        by_cases hm : c ∈ sectionKeys
        · simp [hm]
        · simp [hm, hit]

/-- Running the `forEach` loop over items without prototype-colliding
categories completes and fills each of the five sections with exactly
the lines of the items assigned to it, in order. -/
theorem foldlM_addItem_five (items : List KItem)
    (hok : ∀ it ∈ items, jsOrStr it.category "Others" ∉ objectProtoKeys) :
    ∀ a b c d e : List String,
    items.foldlM addItem
      [("Starters", a), ("Mains", b), ("Rice & Bread", c), ("Drinks", d),
       ("Others", e)] =
      some [("Starters", a ++ secContent "Starters" items),
       ("Mains", b ++ secContent "Mains" items),
       ("Rice & Bread", c ++ secContent "Rice & Bread" items),
       ("Drinks", d ++ secContent "Drinks" items),
       ("Others", e ++ secContent "Others" items)] := by
  induction items with
  | nil => intro a b c d e; simp [secContent]
  | cons it rest ih =>
      intro a b c d e
      have hit : jsOrStr it.category "Others" ∉ objectProtoKeys :=
        hok it (List.mem_cons_self it rest)
      have hrest : ∀ it' ∈ rest, jsOrStr it'.category "Others" ∉ objectProtoKeys :=
        fun it' h => hok it' (List.mem_cons_of_mem it h)
      rcases (by simpa [sectionKeys] using itemSectionSpec_mem it) with h | h | h | h | h <;>
        rw [List.foldlM_cons, addItem_five_eq a b c d e it hit, h] <;>
        simp [addToSection, secContent, List.filter_cons, h, ih hrest, List.append_assoc]

/-- On an order without prototype-colliding categories the grouping loop
completes, filling the five fixed sections. -/
theorem foldlM_addItem_initSections (items : List KItem)
    (hok : ∀ it ∈ items, jsOrStr it.category "Others" ∉ objectProtoKeys) :
    items.foldlM addItem initSections =
      some [("Starters", secContent "Starters" items),
       ("Mains", secContent "Mains" items),
       ("Rice & Bread", secContent "Rice & Bread" items),
       ("Drinks", secContent "Drinks" items),
       ("Others", secContent "Others" items)] := by
  have h := foldlM_addItem_five items hok [] [] [] [] []
  simpa [initSections] using h

theorem foldl_blocks_acc (secs : List (String × List String)) :
    ∀ acc, secs.foldl (fun acc p => acc ++ sectionBlock p.1 p.2) acc =
      acc ++ secs.foldl (fun acc p => acc ++ sectionBlock p.1 p.2) [] := by
  induction secs with
  | nil => simp
  | cons p rest ih =>
      intro acc
      rw [List.foldl_cons, List.foldl_cons, ih (acc ++ _), ih ([] ++ _)]
      simp [List.append_assoc]

theorem renderSections_cons (p : String × List String)
    (rest : List (String × List String)) :
    renderSections (p :: rest) = sectionBlock p.1 p.2 ++ renderSections rest := by
  unfold renderSections
  rw [List.foldl_cons, foldl_blocks_acc]
  simp

/-- A section block is rendered exactly when some item is assigned to
the section, and then it is the header, the items and a blank line. -/
theorem sectionBlock_secContent (nm : String) (items : List KItem) :
    sectionBlock nm (secContent nm items) =
      if items.any (fun it => itemSectionSpec it == nm) then
        ("[" ++ strUpper nm ++ "]") :: secContent nm items ++ [""]
      else [] := by
  unfold sectionBlock
  by_cases h : items.any (fun it => itemSectionSpec it == nm)
  · rw [if_pos h, if_pos]
    obtain ⟨it, hmem, hit⟩ := List.any_eq_true.mp h
    have hne : secContent nm items ≠ [] := by
      unfold secContent
      intro hnil
      rw [List.flatten_eq_nil_iff] at hnil
      have hm : itemKitchenLines it ∈
          (items.filter (fun it => itemSectionSpec it == nm)).map itemKitchenLines :=
        List.mem_map_of_mem _ (List.mem_filter.mpr ⟨hmem, hit⟩)
      have := hnil _ hm
      simp [itemKitchenLines] at this
    exact List.length_pos.mpr hne
  · rw [if_neg h, if_neg]
    have hfil : items.filter (fun it => itemSectionSpec it == nm) = [] := by
      rw [List.filter_eq_nil_iff]
      intro it hmem hit
      exact h (List.any_eq_true.mpr ⟨it, hmem, hit⟩)
    have : secContent nm items = [] := by unfold secContent; rw [hfil]; rfl
    rw [this]
    simp

theorem flatten_map_filter (keys : List String) (p : String → Bool)
    (f : String → List String) :
    ((keys.filter p).map f).flatten =
      (keys.map (fun nm => if p nm then f nm else [])).flatten := by
  induction keys with
  | nil => rfl
  | cons k rest ih => by_cases h : p k <;> simp [List.filter_cons, h, ih]

/-- Rendering the filled sections gives the five fixed sections in
order, restricted to those that received at least one item, each as a
bracketed uppercase header followed by its items' lines. -/
theorem renderSections_filled (items : List KItem) :
    renderSections
      [("Starters", secContent "Starters" items),
       ("Mains", secContent "Mains" items),
       ("Rice & Bread", secContent "Rice & Bread" items),
       ("Drinks", secContent "Drinks" items),
       ("Others", secContent "Others" items)] =
      ((sectionKeys.filter (fun nm => items.any (fun it => itemSectionSpec it == nm))).map
        (fun nm => ("[" ++ strUpper nm ++ "]") :: secContent nm items ++ [""])).flatten := by
  rw [flatten_map_filter]
  rw [renderSections_cons, renderSections_cons, renderSections_cons,
    renderSections_cons, renderSections_cons]
  show _ ++ (_ ++ (_ ++ (_ ++ (_ ++ renderSections [])))) = _
  rw [show renderSections [] = [] from rfl]
  simp only [sectionBlock_secContent, sectionKeys, List.map_cons, List.map_nil,
    List.flatten_cons, List.flatten_nil]

/-- C3 (amended): for a kitchen order none of whose item categories is
an inherited `Object.prototype` property name, the grouping loop
completes and renders exactly the fixed sections Starters, Mains,
Rice & Bread, Drinks, Others in that order; an item whose category is
absent or not one of those five names is placed in Others; only sections
that received at least one item are rendered, each under its uppercased
bracketed header.  (For a colliding category such as `"toString"` the
lookup finds the inherited member and the loop throws instead — see the
counterexample.) -/
theorem kitchen_grouping_fixed_sections (o : KOrder) (n ts : String)
    (hok : ∀ it ∈ o.items, jsOrStr it.category "Others" ∉ objectProtoKeys) :
    (o.items.foldlM addItem initSections).map renderSections =
      some (((sectionKeys.filter (fun nm =>
          o.items.any (fun it => itemSectionSpec it == nm))).map
        (fun nm => ("[" ++ strUpper nm ++ "]") :: secContent nm o.items ++ [""])).flatten) ∧
    (∃ suf, kitchenLines o n ts = some
      (["", "KITCHEN ORDER #" ++ n, ts, "============================", ""]
      ++ ((sectionKeys.filter (fun nm =>
            o.items.any (fun it => itemSectionSpec it == nm))).map
          (fun nm => ("[" ++ strUpper nm ++ "]") :: secContent nm o.items ++ [""])).flatten
      ++ suf)) := by
  have hfold := foldlM_addItem_initSections o.items hok
  constructor
  · rw [hfold]
    simp only [Option.map_some']
    rw [renderSections_filled]
  · refine ⟨(match o.specialInstructions with
      | some s => if s = "" then [] else ["", "🍽️ SPECIAL INSTRUCTIONS:", s, ""]
      | none => [])
    ++ ["", "Table: " ++ jsOrStr o.tableNumber "N/A",
        "Order Type: " ++ jsOrStr o.orderType "DINE-IN",
        "============================", "    "], ?_⟩
    unfold kitchenLines
    simp only [hfold]
    rw [renderSections_filled]
    simp [List.append_assoc]

/-- Counterexample to C3 as frozen: for the category `"toString"` the
item is not placed in Others — `sections["toString"]` finds the
inherited `Object.prototype.toString`, which is truthy, so the fallback
is skipped, `targetSection.push` throws, and the loop aborts with no
sections built. -/
theorem kitchen_grouping_counterexample :
    ([{ name := "Poppadom", quantity := 1, category := some "toString" }] :
        List KItem).foldlM addItem initSections = none := rfl

/-- Witness for C3 at the spec's Naan example. -/
theorem kitchen_grouping_witness :
    (([{ name := "Naan", quantity := 2, category := some "Rice & Bread" }] :
        List KItem).foldlM addItem initSections).map renderSections =
      some (((sectionKeys.filter (fun nm =>
          ([{ name := "Naan", quantity := 2, category := some "Rice & Bread" }] :
            List KItem).any (fun it => itemSectionSpec it == nm))).map
        (fun nm => ("[" ++ strUpper nm ++ "]") ::
          secContent nm [{ name := "Naan", quantity := 2, category := some "Rice & Bread" }]
          ++ [""])).flatten) :=
  (kitchen_grouping_fixed_sections
    { items := [{ name := "Naan", quantity := 2, category := some "Rice & Bread" }] }
    "42" "t" (by decide)).1

/-- C2 (amended): for a kitchen order none of whose item categories is
an inherited `Object.prototype` property name, the document renders and
contains one line `"<quantity>x <name>"` for each item, and ends with
the trailing block whose Table line shows the table number (default
`"N/A"`) and whose Order Type line shows the order type (default
`"DINE-IN"`).  (With a colliding category the handler throws and renders
nothing — see the counterexample.) -/
theorem kitchen_item_lines_and_trailing_block (o : KOrder) (n ts : String)
    (hok : ∀ it ∈ o.items, jsOrStr it.category "Others" ∉ objectProtoKeys) :
    ∃ doc, kitchenLines o n ts = some doc ∧
      (∀ it ∈ o.items, (Nat.repr it.quantity ++ "x " ++ it.name) ∈ doc) ∧
      (∃ pre, doc =
        pre ++ ["", "Table: " ++ jsOrStr o.tableNumber "N/A",
                "Order Type: " ++ jsOrStr o.orderType "DINE-IN",
                "============================", "    "]) := by
  have hfold := foldlM_addItem_initSections o.items hok
  refine ⟨["", "KITCHEN ORDER #" ++ n, ts, "============================", ""]
      ++ renderSections
          [("Starters", secContent "Starters" o.items),
           ("Mains", secContent "Mains" o.items),
           ("Rice & Bread", secContent "Rice & Bread" o.items),
           ("Drinks", secContent "Drinks" o.items),
           ("Others", secContent "Others" o.items)]
      ++ (match o.specialInstructions with
          | some s => if s = "" then [] else ["", "🍽️ SPECIAL INSTRUCTIONS:", s, ""]
          | none => [])
      ++ ["", "Table: " ++ jsOrStr o.tableNumber "N/A",
          "Order Type: " ++ jsOrStr o.orderType "DINE-IN",
          "============================", "    "], ?_, ?_, ?_⟩
  · unfold kitchenLines
    rw [hfold]
  · intro it hit
    have hline : (Nat.repr it.quantity ++ "x " ++ it.name) ∈
        secContent (itemSectionSpec it) o.items := by
      unfold secContent
      refine List.mem_flatten.mpr ⟨itemKitchenLines it,
        List.mem_map_of_mem _ (List.mem_filter.mpr ⟨hit, by simp⟩), ?_⟩
      simp [itemKitchenLines]
    have hbody : (Nat.repr it.quantity ++ "x " ++ it.name) ∈
        renderSections
          [("Starters", secContent "Starters" o.items),
           ("Mains", secContent "Mains" o.items),
           ("Rice & Bread", secContent "Rice & Bread" o.items),
           ("Drinks", secContent "Drinks" o.items),
           ("Others", secContent "Others" o.items)] := by
      rw [renderSections_filled]
      refine List.mem_flatten.mpr ⟨_,
        List.mem_map_of_mem _ (List.mem_filter.mpr ⟨itemSectionSpec_mem it, ?_⟩), ?_⟩
      · exact List.any_eq_true.mpr ⟨it, hit, by simp⟩
      · exact List.mem_cons_of_mem _ (List.mem_append_left _ hline)
    exact List.mem_append.mpr (Or.inl (List.mem_append.mpr (Or.inl
      (List.mem_append.mpr (Or.inr hbody)))))
  · exact ⟨_, rfl⟩

/-- Counterexample to C2 as frozen: a valid kitchen request whose single
item has category `"toString"` renders no document at all (the grouping
loop throws), so no `"1x Poppadom"` line ever appears. -/
theorem kitchen_item_lines_counterexample :
    kitchenLines
      { items := [{ name := "Poppadom", quantity := 1, category := some "toString" }] }
      "1" "t" = none := rfl

/-- Witness for C2: the spec's own example — a two-Naan order renders,
with a `"2x Naan"` line and the trailing defaults. -/
theorem kitchen_item_lines_witness :
    ∃ doc, kitchenLines
      { items := [{ name := "Naan", quantity := 2, category := some "Rice & Bread" }] }
      "42" "t" = some doc ∧
      (∀ it ∈ ([{ name := "Naan", quantity := 2, category := some "Rice & Bread" }] :
          List KItem), (Nat.repr it.quantity ++ "x " ++ it.name) ∈ doc) ∧
      (∃ pre, doc = pre ++ ["", "Table: N/A", "Order Type: DINE-IN",
        "============================", "    "]) :=
  kitchen_item_lines_and_trailing_block
    { items := [{ name := "Naan", quantity := 2, category := some "Rice & Bread" }] }
    "42" "t" (by decide)

/-- C6 (amended): every print request that passes validation and whose
formatter does not throw reports `success: true` with HTTP 200 whatever
the printer state; the response is the same with and without a device;
with no device or a throwing device the document goes to the console
sink; and with no device the health endpoint reports
`printer_connected: false`.  (A validated kitchen request whose item
category collides with an `Object.prototype` name makes the formatter
throw and the handler answer 500 — see the counterexample.) -/
theorem print_success_and_console_fallback
    (printer : Option Device) (order payment orderNumber timestamp : JValue)
    (now : String) :
    ((handleTest printer now).1.success = true ∧
     (handleTest printer now).1.status = 200) ∧
    (∀ ko, order.truthy = true → orderNumber.truthy = true →
      decodeKOrder order = some ko →
      (∀ it ∈ ko.items, jsOrStr it.category "Others" ∉ objectProtoKeys) →
      (handleKitchen printer order orderNumber timestamp now).1.success = true ∧
      (handleKitchen printer order orderNumber timestamp now).1.status = 200 ∧
      (handleKitchen printer order orderNumber timestamp now).1 =
        (handleKitchen none order orderNumber timestamp now).1 ∧
      (handleKitchen printer order orderNumber timestamp now).2.1 ≠ none) ∧
    (order.truthy = true → payment.truthy = true → orderNumber.truthy = true →
      (decodeCOrder order).isSome = true →
      (handleCustomer printer order payment orderNumber timestamp now).1.success = true ∧
      (handleCustomer printer order payment orderNumber timestamp now).1.status = 200 ∧
      (handleCustomer printer order payment orderNumber timestamp now).2.1 ≠ none) ∧
    (∀ c, (printOrSimulate none c).1.sink = Sink.console) ∧
    (∀ d c, d.fails = true → (printOrSimulate (some d) c).1.sink = Sink.console) ∧
    (healthHandler none).1.printer_connected = false := by
  refine ⟨⟨rfl, rfl⟩, ?_, ?_, fun c => rfl, fun d c h => by simp [printOrSimulate, h], rfl⟩
  · intro ko h1 h2 hdec hok
    have hfold := foldlM_addItem_initSections ko.items hok
    simp [handleKitchen, h1, h2, hdec, kitchenLines, hfold]
  · intro h1 h2 h3 h4
    obtain ⟨o, ho⟩ := Option.isSome_iff_exists.mp h4
    simp [handleCustomer, h1, h2, h3, ho]

/-- Counterexample to C6 as frozen: a kitchen request that passes
validation but whose item category is `"toString"` is answered with
HTTP 500 and no success, and nothing is printed. -/
theorem print_success_counterexample :
    (handleKitchen none
      (JValue.obj [("items", JValue.arr [JValue.obj
        [("name", JValue.str "Poppadom"), ("quantity", JValue.num 1),
         ("category", JValue.str "toString")]])])
      (JValue.str "1") JValue.undefined "t").1.status = 500 ∧
    (handleKitchen none
      (JValue.obj [("items", JValue.arr [JValue.obj
        [("name", JValue.str "Poppadom"), ("quantity", JValue.num 1),
         ("category", JValue.str "toString")]])])
      (JValue.str "1") JValue.undefined "t").1.success = false ∧
    (handleKitchen none
      (JValue.obj [("items", JValue.arr [JValue.obj
        [("name", JValue.str "Poppadom"), ("quantity", JValue.num 1),
         ("category", JValue.str "toString")]])])
      (JValue.str "1") JValue.undefined "t").2.1 = none :=
  ⟨rfl, rfl, rfl⟩

/-- Witness for C6 at a concrete valid kitchen request with no device
attached. -/
theorem print_success_and_console_fallback_witness :
    (handleKitchen none (JValue.obj [("items", JValue.arr [])]) (JValue.str "42")
        JValue.undefined "t").1.success = true ∧
    (handleKitchen none (JValue.obj [("items", JValue.arr [])]) (JValue.str "42")
        JValue.undefined "t").1.status = 200 ∧
    (handleKitchen none (JValue.obj [("items", JValue.arr [])]) (JValue.str "42")
        JValue.undefined "t").1 =
      (handleKitchen none (JValue.obj [("items", JValue.arr [])]) (JValue.str "42")
        JValue.undefined "t").1 ∧
    (handleKitchen none (JValue.obj [("items", JValue.arr [])]) (JValue.str "42")
        JValue.undefined "t").2.1 ≠ none :=
  (print_success_and_console_fallback none (JValue.obj [("items", JValue.arr [])])
      JValue.undefined (JValue.str "42") JValue.undefined "t").2.1
    { items := [] } rfl rfl rfl (by simp)

/-! ### Customer totals -/

/-- The two-decimal fractional part of `toFixed2` has length 2. -/
theorem pad2_length :
    ∀ r < 100, ((if r < 10 then "0" ++ Nat.repr r else Nat.repr r) : String).length = 2 := by
  decide

/-- `toFixed2` renders the pounds part, a dot and exactly two decimal
digits. -/
theorem toFixed2_shape (m : Nat) :
    ∃ ds, toFixed2 m = Nat.repr (m / 100) ++ "." ++ ds ∧ ds.length = 2 :=
  ⟨_, rfl, pad2_length (m % 100) (Nat.mod_lt _ (by decide))⟩

/-- C4: the rendered customer document's TOTAL, Subtotal and VAT lines
are the caller-supplied order fields formatted to exactly two decimal
places, and the whole totals block is independent of the items (nothing
is recomputed from per-item extended prices). -/
theorem customer_totals_from_order_fields (o : COrder) (p : CPayment) (n ts : String) :
    ("TOTAL...................£" ++ toFixed2 o.total) ∈ customerLines o p n ts ∧
    ("Subtotal................£" ++ toFixed2 o.subtotal) ∈ customerLines o p n ts ∧
    ("VAT (20%)...............£" ++ toFixed2 o.vatAmount) ∈ customerLines o p n ts ∧
    (∀ items', customerTotalsLines { o with items := items' } = customerTotalsLines o) ∧
    (∃ ds, toFixed2 o.total = Nat.repr (o.total / 100) ++ "." ++ ds ∧ ds.length = 2) := by
  refine ⟨?_, ?_, ?_, fun items' => rfl, toFixed2_shape o.total⟩ <;>
    simp [customerLines, customerTotalsLines, List.mem_append]

/-- Whether a string of at least `p.length` characters followed by
anything begins with `p` is decided by its concrete head. -/
theorem beginsWith_concat (q a x : String) (hlen : q.data.length ≤ a.data.length) :
    beginsWith q (a ++ x) ↔ beginsWith q a := by
  unfold beginsWith
  rw [String.data_append, List.take_append_eq_append_take,
    Nat.sub_eq_zero_of_le hlen, List.take_zero, List.append_nil]

/-- Every line of the totals block that begins with `"Discount"` is the
conditional discount line, so its presence forces a positive
`discountAmount`. -/
theorem totals_discount_line_mem (o : COrder) (l : String)
    (hl : l ∈ customerTotalsLines o) (hb : beginsWith "Discount" l) :
    ∃ d, o.discountAmount = some d ∧ 0 < d := by
  have nbe : ¬ beginsWith "Discount" "" := by decide
  have nbd : ¬ beginsWith "Discount" "----------------------------" := by decide
  have nbs : ∀ x, ¬ beginsWith "Discount" ("Subtotal................£" ++ x) := fun x => by
    rw [beginsWith_concat _ _ _ (by decide)]; decide
  have nbf : ∀ x, ¬ beginsWith "Discount" ("Delivery Fee............£" ++ x) := fun x => by
    rw [beginsWith_concat _ _ _ (by decide)]; decide
  have nbv : ∀ x, ¬ beginsWith "Discount" ("VAT (20%)...............£" ++ x) := fun x => by
    rw [beginsWith_concat _ _ _ (by decide)]; decide
  have nbt : ∀ x, ¬ beginsWith "Discount" ("TOTAL...................£" ++ x) := fun x => by
    rw [beginsWith_concat _ _ _ (by decide)]; decide
  unfold customerTotalsLines at hl
  rcases List.mem_append.mp hl with h | h
  · rcases List.mem_append.mp h with h | h
    · rcases List.mem_append.mp h with h | h
      · simp at h
        rcases h with rfl | rfl | rfl
        · exact absurd hb nbe
        · exact absurd hb nbd
        · exact absurd hb (nbs _)
      · rcases hd : o.discountAmount with _ | d
        · rw [hd] at h; simp at h
        · rw [hd] at h
          by_cases h0 : 0 < d
          · exact ⟨d, rfl, h0⟩
          · simp [h0] at h
    · rcases hf : o.deliveryFee with _ | f
      · rw [hf] at h; simp at h
      · rw [hf] at h
        by_cases h0 : 0 < f
        · simp [h0] at h
          exact absurd (h ▸ hb) (nbf _)
        · simp [h0] at h
  · simp at h
    rcases h with rfl | rfl | rfl
    · exact absurd hb (nbv _)
    · exact absurd hb nbd
    · exact absurd hb (nbt _)

/-- Every line of the totals block that begins with `"Delivery Fee"` is
the conditional delivery-fee line, so its presence forces a positive
`deliveryFee`. -/
theorem totals_delivery_line_mem (o : COrder) (l : String)
    (hl : l ∈ customerTotalsLines o) (hb : beginsWith "Delivery Fee" l) :
    ∃ f, o.deliveryFee = some f ∧ 0 < f := by
  have nbe : ¬ beginsWith "Delivery Fee" "" := by decide
  have nbd : ¬ beginsWith "Delivery Fee" "----------------------------" := by decide
  have nbs : ∀ x, ¬ beginsWith "Delivery Fee" ("Subtotal................£" ++ x) := fun x => by
    rw [beginsWith_concat _ _ _ (by decide)]; decide
  have nbc : ∀ x, ¬ beginsWith "Delivery Fee" ("Discount................-£" ++ x) := fun x => by
    rw [beginsWith_concat _ _ _ (by decide)]; decide
  have nbv : ∀ x, ¬ beginsWith "Delivery Fee" ("VAT (20%)...............£" ++ x) := fun x => by
    rw [beginsWith_concat _ _ _ (by decide)]; decide
  have nbt : ∀ x, ¬ beginsWith "Delivery Fee" ("TOTAL...................£" ++ x) := fun x => by
    rw [beginsWith_concat _ _ _ (by decide)]; decide
  unfold customerTotalsLines at hl
  rcases List.mem_append.mp hl with h | h
  · rcases List.mem_append.mp h with h | h
    · rcases List.mem_append.mp h with h | h
      · simp at h
        rcases h with rfl | rfl | rfl
        · exact absurd hb nbe
        · exact absurd hb nbd
        · exact absurd hb (nbs _)
      · rcases hd : o.discountAmount with _ | d
        · rw [hd] at h; simp at h
        · rw [hd] at h
          by_cases h0 : 0 < d
          · simp [h0] at h
            exact absurd (h ▸ hb) (nbc _)
          · simp [h0] at h
    · rcases hf : o.deliveryFee with _ | f
      · rw [hf] at h; simp at h
      · rw [hf] at h
        by_cases h0 : 0 < f
        · exact ⟨f, rfl, h0⟩
        · simp [h0] at h
  · simp at h
    rcases h with rfl | rfl | rfl
    · exact absurd hb (nbv _)
    · exact absurd hb nbd
    · exact absurd hb (nbt _)

/-- C5: the customer document contains a line beginning `"Discount"`
(the negative `-£` discount line) exactly when `discountAmount` is
present and positive, and a line beginning `"Delivery Fee"` exactly when
`deliveryFee` is present and positive; the totals block sits inside the
full document. -/
theorem customer_discount_delivery_conditional (o : COrder) (p : CPayment)
    (n ts : String) :
    ((∃ l ∈ customerTotalsLines o, beginsWith "Discount" l) ↔
      (∃ d, o.discountAmount = some d ∧ 0 < d)) ∧
    ((∃ l ∈ customerTotalsLines o, beginsWith "Delivery Fee" l) ↔
      (∃ f, o.deliveryFee = some f ∧ 0 < f)) ∧
    (∃ pre suf, customerLines o p n ts = pre ++ customerTotalsLines o ++ suf) := by
  refine ⟨⟨fun ⟨l, hl, hb⟩ => totals_discount_line_mem o l hl hb, ?_⟩,
    ⟨fun ⟨l, hl, hb⟩ => totals_delivery_line_mem o l hl hb, ?_⟩, ?_⟩
  · rintro ⟨d, hd, h0⟩
    refine ⟨"Discount................-£" ++ toFixed2 d, ?_, ?_⟩
    · simp [customerTotalsLines, hd, h0]
    · rw [beginsWith_concat _ _ _ (by decide)]; decide
  · rintro ⟨f, hf, h0⟩
    refine ⟨"Delivery Fee............£" ++ toFixed2 f, ?_, ?_⟩
    · simp [customerTotalsLines, hf, h0]
    · rw [beginsWith_concat _ _ _ (by decide)]; decide
  · refine ⟨["", "CUSTOMER RECEIPT", "Order #" ++ n, ts, "============================", ""]
      ++ (o.items.map itemCustomerLines).flatten,
      ["", "PAYMENT DETAILS:", "Method: " ++ p.method, "Status: " ++ p.status]
      ++ (match p.cardLast4 with
          | some c => if c = "" then [] else ["Card: ****" ++ c]
          | none => [])
      ++ ["", "Order Type: " ++ jsShow o.orderType]
      ++ (match o.deliveryAddress with
          | some a => if a = "" then [] else ["Delivery Address:", a]
          | none => [])
      ++ ["", "Thank you for your order!", "Visit us again soon.",
          "============================", "    "], ?_⟩
    unfold customerLines
    simp [List.append_assoc]

end CottagePrinter
